import Mathlib

/-!
Verification development for the Ecosystem agent-host repository.

The definitions below are a shallow embedding of the orchestration engine
in `src/app/run_workflow.py` (and its near-identical twin `src/host_agent.py`):
the gateway-response normalizer `_extract_assistant_and_tool_calls`, the
gateway exchange `_velocity_chat_completions`, the catalog build, the
tool-dispatch loop of `run_order_workflow`, and the web app's background
runner in `src/app/web_app.py`.  Python dicts are modelled as insertion-ordered
association lists, JSON values as an inductive type, machine-level I/O
(subprocess channels, HTTP) as explicit function parameters, and raised
exceptions as `Except` errors.
-/

/-- JSON values, modelling the Python objects produced by `json.loads` /
`resp.json()`.  Objects keep key insertion order, like Python dicts. -/
inductive Json where
  | null
  | bool (b : Bool)
  | num (n : Int)
  | str (s : String)
  | arr (xs : List Json)
  | obj (kvs : List (String × Json))

mutual

/-- Structural equality test for JSON values. -/
def beqJson : Json → Json → Bool
  | Json.null, Json.null => true
  | Json.bool a, Json.bool b => a = b
  | Json.num a, Json.num b => a = b
  | Json.str a, Json.str b => a = b
  | Json.arr a, Json.arr b => beqJsonArr a b
  | Json.obj a, Json.obj b => beqJsonKvs a b
  | _, _ => false

/-- Structural equality test for JSON arrays. -/
def beqJsonArr : List Json → List Json → Bool
  | [], [] => true
  | a :: as, b :: bs => beqJson a b && beqJsonArr as bs
  | _, _ => false

/-- Structural equality test for JSON object entry lists. -/
def beqJsonKvs : List (String × Json) → List (String × Json) → Bool
  | [], [] => true
  | (k, v) :: as, (k', v') :: bs => k = k' && beqJson v v' && beqJsonKvs as bs
  | _, _ => false

end

mutual

theorem beqJson_iff : ∀ a b : Json, beqJson a b = true ↔ a = b
  | Json.null, Json.null => by simp [beqJson]
  | Json.null, Json.bool _ | Json.null, Json.num _ | Json.null, Json.str _
  | Json.null, Json.arr _ | Json.null, Json.obj _ => by simp [beqJson]
  | Json.bool _, Json.null | Json.bool _, Json.num _ | Json.bool _, Json.str _
  | Json.bool _, Json.arr _ | Json.bool _, Json.obj _ => by simp [beqJson]
  | Json.bool a, Json.bool b => by simp [beqJson]
  | Json.num _, Json.null | Json.num _, Json.bool _ | Json.num _, Json.str _
  | Json.num _, Json.arr _ | Json.num _, Json.obj _ => by simp [beqJson]
  | Json.num a, Json.num b => by simp [beqJson]
  | Json.str _, Json.null | Json.str _, Json.bool _ | Json.str _, Json.num _
  | Json.str _, Json.arr _ | Json.str _, Json.obj _ => by simp [beqJson]
  | Json.str a, Json.str b => by simp [beqJson]
  | Json.arr _, Json.null | Json.arr _, Json.bool _ | Json.arr _, Json.num _
  | Json.arr _, Json.str _ | Json.arr _, Json.obj _ => by simp [beqJson]
  | Json.arr a, Json.arr b => by
      simp [beqJson, beqJsonArr_iff a b]
  | Json.obj _, Json.null | Json.obj _, Json.bool _ | Json.obj _, Json.num _
  | Json.obj _, Json.str _ | Json.obj _, Json.arr _ => by simp [beqJson]
  | Json.obj a, Json.obj b => by
      simp [beqJson, beqJsonKvs_iff a b]

theorem beqJsonArr_iff : ∀ a b : List Json, beqJsonArr a b = true ↔ a = b
  | [], [] => by simp [beqJsonArr]
  | [], _ :: _ => by simp [beqJsonArr]
  | _ :: _, [] => by simp [beqJsonArr]
  | a :: as, b :: bs => by
      simp [beqJsonArr, beqJson_iff a b, beqJsonArr_iff as bs]

theorem beqJsonKvs_iff : ∀ a b : List (String × Json), beqJsonKvs a b = true ↔ a = b
  | [], [] => by simp [beqJsonKvs]
  | [], _ :: _ => by simp [beqJsonKvs]
  | _ :: _, [] => by simp [beqJsonKvs]
  | (k, v) :: as, (k', v') :: bs => by
      simp [beqJsonKvs, beqJson_iff v v', beqJsonKvs_iff as bs, Prod.ext_iff, and_assoc]

end

instance : DecidableEq Json := fun a b => decidable_of_iff (beqJson a b = true) (beqJson_iff a b)

/-- Python truthiness (`bool(x)`) for JSON-shaped values: `None`, `False`,
`0`, `""`, `[]` and `{}` are falsy, everything else truthy. -/
def isTruthy : Json → Bool
  | Json.null => false
  | Json.bool b => b
  | Json.num n => n != 0
  | Json.str s => s != ""
  | Json.arr xs => !xs.isEmpty
  | Json.obj kvs => !kvs.isEmpty

/-- Python `x or d`: the left value if truthy, else the default. -/
def pyOr (j d : Json) : Json := if isTruthy j then j else d

/-- First-match association lookup, modelling Python dict lookup on an
insertion-ordered list of key/value pairs (dicts never hold duplicate keys). -/
def assocFind {α : Type} : List (String × α) → String → Option α
  | [], _ => none
  | (k', v) :: rest, k => if k' = k then some v else assocFind rest k

/-- `d.get(k)` on a dict-shaped JSON value: `None` when the key is absent.
The source only applies `.get` to values it assumes are dicts; applying this
to a non-object returns `null` and is never exercised by the theorems. -/
def dictGet (j : Json) (k : String) : Json :=
  match j with
  | Json.obj kvs => (assocFind kvs k).getD Json.null
  | _ => Json.null

/-- `gateway_json.get(k)` where `gateway_json` is the top-level response dict. -/
def dictGetL (g : List (String × Json)) (k : String) : Json :=
  (assocFind g k).getD Json.null

/-- Python `k in d` key-membership test on the top-level response dict. -/
def containsKey (g : List (String × Json)) (k : String) : Bool :=
  (assocFind g k).isSome

/-- Iterating a JSON value as a list (`for tc in v`).  The source only
iterates values that are lists (or falsy, after `or []`); other values do
not occur in the shapes the theorems consider. -/
def pyListOrEmpty : Json → List Json
  | Json.arr xs => xs
  | _ => []

/-- A single quote character, used by the Python `repr` model. -/
def quoteChar : Char := Char.ofNat 39

/-- Python `repr` of a string (`f"...{x!r}"`), for strings containing no
quotes or backslashes — the only ones the diagnostics theorems use. -/
def pyRepr (s : String) : String :=
  String.mk [quoteChar] ++ s ++ String.mk [quoteChar]

/-- Python `str.join`-free JSON string serialization helper: escape the
characters `json.dumps` always escapes in the strings used here
(backslash and double quote; other escapes do not occur in the inputs the
theorems evaluate). -/
def dumpStrChar (c : Char) : String :=
  if c = Char.ofNat 92 then String.mk [Char.ofNat 92, Char.ofNat 92]
  else if c = Char.ofNat 34 then String.mk [Char.ofNat 92, Char.ofNat 34]
  else String.mk [c]

/-- Serialization of a JSON string literal, as `json.dumps` renders it. -/
def dumpStr (s : String) : String :=
  String.mk [Char.ofNat 34] ++ String.join (s.data.map dumpStrChar) ++ String.mk [Char.ofNat 34]

mutual

/-- `json.dumps` with the default separators (`", "` and `": "`), as the
source uses it for tool-result messages and the opaque-text fallback. -/
def dumps : Json → String
  | Json.null => "null"
  | Json.bool true => "true"
  | Json.bool false => "false"
  | Json.num n => toString n
  | Json.str s => dumpStr s
  | Json.arr xs => "[" ++ dumpsArr xs ++ "]"
  | Json.obj kvs => "\x7b" ++ dumpsObj kvs ++ "\x7d"

/-- Comma-separated serialization of a JSON array's elements. -/
def dumpsArr : List Json → String
  | [] => ""
  | [x] => dumps x
  | x :: y :: rest => dumps x ++ ", " ++ dumpsArr (y :: rest)

/-- Comma-separated serialization of a JSON object's entries. -/
def dumpsObj : List (String × Json) → String
  | [] => ""
  | [(k, v)] => dumpStr k ++ ": " ++ dumps v
  | (k, v) :: e :: rest => dumpStr k ++ ": " ++ dumps v ++ ", " ++ dumpsObj (e :: rest)

end

/-- Characters admitted by the OpenAI tool-name pattern `^[A-Za-z0-9_-]+$`
quoted in the source comment (`run_workflow.py` line 181). -/
def allowedChar (c : Char) : Bool :=
  c.isAlpha || c.isDigit || c = '_' || c = '-'

/-- Whether a string matches `^[A-Za-z0-9_-]+$`. -/
def matchesToolNamePattern (s : String) : Bool :=
  !s.data.isEmpty && s.data.all allowedChar

/-- The source's global-name derivation (`run_workflow.py` line 182):
`f"\x7bserver_name\x7d_\x7bt.name\x7d".replace(".", "_")` — concatenate and
replace every `'.'` (and only `'.'`) by `'_'`. -/
def sanitizeToolName (server localName : String) : String :=
  String.mk ((server ++ "_" ++ localName).data.map (fun c => if c = '.' then '_' else c))

/-- Modelled from the spec's words for comparison (refinement check of C1):
derive `<sessionName>_<localName>` replacing every character outside
`[A-Za-z0-9_-]` by `'_'`. -/
def specSanitizeToolName (server localName : String) : String :=
  String.mk ((server ++ "_" ++ localName).data.map (fun c => if allowedChar c then c else '_'))

/-- One tool declared by an MCP server session (`t` in `session.list_tools().tools`). -/
structure ToolDecl where
  name : String
  description : Option String
  inputSchema : Option Json
deriving DecidableEq

/-- Python dict assignment `d[k] = v`: overwrite the existing entry in place
(keeping its position) or append a fresh one. -/
def dictInsert {α : Type} : List (String × α) → String → α → List (String × α)
  | [], k, v => [(k, v)]
  | (k', v') :: rest, k, v =>
      if k' = k then (k', v) :: rest else (k', v') :: dictInsert rest k v

/-- The `(server_name, t.name)` pairs of all declared tools, in the order
the nested catalog-build loop of `run_order_workflow` visits them. -/
def declPairs (decls : List (String × List ToolDecl)) : List (String × String) :=
  (decls.map (fun p => p.2.map (fun t => (p.1, t.name)))).flatten

/-- One catalog-build step: `tool_index[safe_name] = (server_name, t.name)`. -/
def insertToolPair (idx : List (String × String × String)) (p : String × String) :
    List (String × String × String) :=
  dictInsert idx (sanitizeToolName p.1 p.2) p

/-- The `tool_index` dict after the catalog-build loops (lines 175-194 of
`run_workflow.py`), linearized over the visited `(server, localName)` pairs. -/
def buildToolIndexPairs (ps : List (String × String)) : List (String × String × String) :=
  ps.foldl insertToolPair []

/-- `tool_index` built from per-session tool declarations. -/
def buildToolIndex (decls : List (String × List ToolDecl)) : List (String × String × String) :=
  buildToolIndexPairs (declPairs decls)

/-- The last `(server, localName)` pair in visit order whose sanitized name
is `k` (used to state what the dict build actually keeps on collisions). -/
def lastSanitizeMatch : List (String × String) → String → Option (String × String)
  | [], _ => none
  | p :: ps, k =>
      match lastSanitizeMatch ps k with
      | some q => some q
      | none => if sanitizeToolName p.1 p.2 = k then some p else none

/-- The gateway-facing tool descriptor built for one declared tool
(lines 185-194 of `run_workflow.py`). -/
def toolDescriptor (serverName : String) (t : ToolDecl) : Json :=
  Json.obj [("type", Json.str "function"),
            ("function", Json.obj
              [("name", Json.str (sanitizeToolName serverName t.name)),
               ("description", Json.str ((t.description.getD "").trim)),
               ("parameters", pyOr (t.inputSchema.getD Json.null)
                  (Json.obj [("type", Json.str "object"), ("properties", Json.obj [])]))])]

/-- The `tools` list sent to the gateway (appended for every declared tool,
collisions included). -/
def buildToolsList (decls : List (String × List ToolDecl)) : List Json :=
  (decls.map (fun p => p.2.map (toolDescriptor p.1))).flatten

/-- One normalized tool-call request, as the extractor builds it:
`\x7bid, name, arguments\x7d`.  The source annotates the values as `str` but
never checks; the fields stay JSON values, exactly as Python stores them. -/
structure ToolCall where
  id : Json
  name : Json
  arguments : Json
deriving DecidableEq

/-- Shape-1 tool-call extraction (`run_workflow.py` lines 47-55): read `id`
from the entry and `name`/`arguments` from its `function` sub-dict, with the
source's defaults for falsy values. -/
def toolCallOfOpenAI (tc : Json) : ToolCall :=
  let fn := pyOr (dictGet tc "function") (Json.obj [])
  { id := pyOr (dictGet tc "id") (Json.str "toolcall_1"),
    name := pyOr (dictGet fn "name") (Json.str ""),
    arguments := pyOr (dictGet fn "arguments") (Json.str "\x7b\x7d") }

/-- Shape-2 tool-call extraction (`run_workflow.py` lines 62-69): `id`,
`name` and `arguments` read directly from the entry, same defaults. -/
def toolCallOfFlat (tc : Json) : ToolCall :=
  { id := pyOr (dictGet tc "id") (Json.str "toolcall_1"),
    name := pyOr (dictGet tc "name") (Json.str ""),
    arguments := pyOr (dictGet tc "arguments") (Json.str "\x7b\x7d") }

/-- Python `str(x)` for the values shape 2 applies it to; on a string it is
the identity (the only case the theorems exercise). -/
def pyStrFn : Json → String
  | Json.str s => s
  | Json.bool true => "True"
  | Json.bool false => "False"
  | Json.null => "None"
  | j => dumps j

/-- Python f-string formatting of a value (`f"Unknown tool: \x7btool_name\x7d"`);
identity on strings, the only case the theorems exercise. -/
def pyFStr : Json → String
  | Json.str s => s
  | j => pyStrFn j

/-- Shape 1 of the normalizer (`run_workflow.py` lines 42-56): extract from
the first element of `choices`: `msg = (choices[0] or \x7b\x7d).get("message") or \x7b\x7d`,
text `msg.get("content") or ""`, calls from `msg.get("tool_calls") or []`. -/
def extractFromChoice (c0 : Json) : Json × List ToolCall :=
  let msg := pyOr (dictGet (pyOr c0 (Json.obj [])) "message") (Json.obj [])
  (pyOr (dictGet msg "content") (Json.str ""),
   (pyListOrEmpty (pyOr (dictGet msg "tool_calls") (Json.arr []))).map toolCallOfOpenAI)

/-- Shape 2 of the normalizer (`run_workflow.py` lines 58-70): flat
`content`/`tool_calls` fields; the text goes through `str(...)`. -/
def extractFlat (g : List (String × Json)) : Json × List ToolCall :=
  (Json.str (pyStrFn (pyOr (dictGetL g "content") (Json.str ""))),
   (pyListOrEmpty (pyOr (dictGetL g "tool_calls") (Json.arr []))).map toolCallOfFlat)

/-- `_extract_assistant_and_tool_calls` (`run_workflow.py` lines 33-73):
shape 1 if `choices` is a nonempty list, else shape 2 if both `content` and
`tool_calls` keys are present, else the whole payload dumped as text and
truncated to 2000 characters with no tool calls. -/
def extractAssistantAndToolCalls (g : List (String × Json)) : Json × List ToolCall :=
  match dictGetL g "choices" with
  | Json.arr (c0 :: _) => extractFromChoice c0
  | _ =>
    if containsKey g "content" && containsKey g "tool_calls" then extractFlat g
    else (Json.str ((dumps (Json.obj g)).take 2000), [])

/-- One conversation message, as `run_order_workflow` appends them. -/
inductive Message where
  | system (content : String)
  | user (content : String)
  | assistant (content : Json) (toolCalls : List ToolCall)
  | tool (toolCallId : Json) (content : String)
deriving DecidableEq

/-- One entry of `call_result.content` from `session.call_tool`, keeping
`c.type` and `getattr(c, "text", None)`. -/
structure ContentItem where
  ctype : String
  ctext : Option String
deriving DecidableEq

/-- The `result` dict built from a successful tool invocation
(`run_workflow.py` lines 251-256). -/
def resultContentJson (items : List ContentItem) : Json :=
  Json.obj [("content", Json.arr (items.map (fun c =>
    Json.obj [("type", Json.str c.ctype),
              ("text", match c.ctext with
                       | some t => Json.str t
                       | none => Json.null)])))]

/-- The run's external collaborators, passed explicitly: whether starting a
server raises, the tools each started session advertises, the gateway
exchange (`Except.error` = raised `RuntimeError`), `json.loads` (`none` =
`JSONDecodeError`), `session.call_tool`, and whether each teardown raises. -/
structure Env where
  startFails : String → Bool
  listTools : String → List ToolDecl
  gateway : List Message → List Json → Except String (List (String × Json))
  loads : String → Option Json
  invoke : String → String → Json → List ContentItem
  stopSessionFails : String → Bool
  stopCmFails : String → Bool

/-- Argument parsing for one tool call (`run_workflow.py` lines 238-241):
`json.loads(args_json) if args_json else \x7b\x7d`, with the
`\x7b"_raw": args_json\x7d` fallback on `JSONDecodeError`.  Non-string truthy
arguments (on which `json.loads` would raise `TypeError`) do not occur in
the runs the theorems consider. -/
def parseArgs (loads : String → Option Json) (a : Json) : Json :=
  if isTruthy a then
    match a with
    | Json.str s =>
      match loads s with
      | some v => v
      | none => Json.obj [("_raw", Json.str s)]
    | _ => Json.obj []
  else Json.obj []

/-- Resolving a requested global name in `tool_index`
(`tool_name not in tool_index` / `tool_index[tool_name]`). -/
def lookupToolIndex (idx : List (String × String × String)) (name : Json) :
    Option (String × String) :=
  match name with
  | Json.str s => assocFind idx s
  | _ => none

/-- Processing of one requested tool call (`run_workflow.py` lines 235-264):
parse the arguments, resolve the name; unknown names yield the error payload
and invoke nothing, known names invoke the session.  Returns the appended
tool message and the invocation performed, if any. -/
def processCall (env : Env) (idx : List (String × String × String)) (tc : ToolCall) :
    Message × Option (String × String × Json) :=
  let args := parseArgs env.loads tc.arguments
  match lookupToolIndex idx tc.name with
  | none =>
    (Message.tool tc.id
      (dumps (Json.obj [("error", Json.str ("Unknown tool: " ++ pyFStr tc.name))])), none)
  | some (serverName, localTool) =>
    (Message.tool tc.id
      (dumps (resultContentJson (env.invoke serverName localTool args))),
     some (serverName, localTool, args))

/-- Terminal outcomes of the tool loop: the gateway answered with no tool
calls (`done`), or the iteration budget ran out (`nonConverged`). -/
inductive Outcome where
  | done (text : Json)
  | nonConverged
deriving DecidableEq

/-- The tool loop (`run_workflow.py` lines 209-266), with the remaining
iteration budget as fuel.  Returns the outcome and the number of gateway
exchanges performed; a gateway error propagates as `Except.error`. -/
def runLoop (env : Env) (idx : List (String × String × String)) (tools : List Json) :
    Nat → List Message → Except String (Outcome × Nat)
  | 0, _ => Except.ok (Outcome.nonConverged, 0)
  | Nat.succ n, msgs =>
    match env.gateway msgs tools with
    | Except.error e => Except.error e
    | Except.ok gj =>
      match extractAssistantAndToolCalls gj with
      | (text, []) => Except.ok (Outcome.done text, 1)
      | (text, c :: cs) =>
        match runLoop env idx tools n
          (msgs ++ Message.assistant text (c :: cs)
            :: ((c :: cs).map (processCall env idx)).map Prod.fst) with
        | Except.error e => Except.error e
        | Except.ok (o, m) => Except.ok (o, m + 1)

/-- The two MCP servers `run_order_workflow` spawns, in start order. -/
def serverNames : List String := ["crm", "email"]

/-- Sequential server startup (`run_workflow.py` lines 147-173): the context
manager is recorded in `stdio_cm` before the handshake, the session in
`sessions` only after `initialize()` succeeds; a failure aborts the start
loop.  Returns (`stdio_cm` keys, `sessions` keys, raised error if any). -/
def startGo (env : Env) (cms sess : List String) :
    List String → List String × List String × Option String
  | [] => (cms, sess, none)
  | s :: rest =>
    if env.startFails s then (cms ++ [s], sess, some ("SessionStartError: " ++ s))
    else startGo env (cms ++ [s]) (sess ++ [s]) rest

/-- The start phase over the fixed server list. -/
def startPhase (env : Env) : List String × List String × Option String :=
  startGo env [] [] serverNames

/-- The system prompt seeded into the conversation (`run_workflow.py` lines 196-201). -/
def systemPromptText : String :=
  "You are an Autonomous Operations Agent. Your job is to process incoming customer orders by using available tools. Workflow: look up customer email for the order, then send a shipping confirmation email. After completing, respond with a short summary of actions taken."

/-- The fixed user prompt (`run_workflow.py` line 202). -/
def userPromptText : String := "Process new order #XYZ-789."

/-- The non-convergence result string (`run_workflow.py` line 266). -/
def notConvergedText : String := "Failed: model kept requesting tools without finishing."

/-- `run_order_workflow` (`run_workflow.py` lines 122-269): start the
servers, build the catalog, run the tool loop with a budget of 10 turns,
and tear everything down in the `finally` block.  Returns the body's result
(with the gateway-exchange count) plus the teardown attempts: one
`(name, raised?)` entry per `sessions` entry and per `stdio_cm` entry —
each wrapped in its own `try/except`, so a raising teardown is recorded but
never skips the rest. -/
def runOrderWorkflow (env : Env) :
    Except String (Json × Nat) × List (String × Bool) × List (String × Bool) :=
  let sp := startPhase env
  let body : Except String (Json × Nat) :=
    match sp.2.2 with
    | some e => Except.error e
    | none =>
      let decls := sp.2.1.map (fun s => (s, env.listTools s))
      let idx := buildToolIndex decls
      let tools := buildToolsList decls
      match runLoop env idx tools 10
        [Message.system systemPromptText, Message.user userPromptText] with
      | Except.error e => Except.error e
      | Except.ok (Outcome.done t, n) => Except.ok (t, n)
      | Except.ok (Outcome.nonConverged, n) => Except.ok (Json.str notConvergedText, n)
  (body,
   sp.2.1.map (fun s => (s, env.stopSessionFails s)),
   sp.1.map (fun s => (s, env.stopCmFails s)))

/-- An HTTP response as the gateway client sees it: status code and body text. -/
structure HttpResponse where
  status : Nat
  text : String
deriving DecidableEq

/-- Trailing-slash stripping, `settings.base_url.rstrip("/")`. -/
def rstripSlash (s : String) : String :=
  String.mk (s.data.reverse.dropWhile (fun c => c = '/')).reverse

/-- The request URL (`run_workflow.py` line 94). -/
def apiUrlOf (baseUrl : String) : String :=
  rstripSlash baseUrl ++ "/chat/completions"

/-- `_velocity_chat_completions` after the HTTP exchange
(`run_workflow.py` lines 101-119): status >= 400 raises the diagnostic
`RuntimeError`; otherwise `resp.json()` is returned, and a body that fails
to parse raises the non-JSON `RuntimeError`.  `loads` stands for the JSON
parse behind `resp.json()`. -/
def velocityChatCompletions (loads : String → Option Json) (baseUrl : String)
    (resp : HttpResponse) : Except String Json :=
  if 400 ≤ resp.status then
    Except.error ("Velocity gateway error status=" ++ toString resp.status
      ++ " url=" ++ pyRepr (apiUrlOf baseUrl) ++ " body=" ++ pyRepr (resp.text.take 500))
  else
    match loads resp.text with
    | some j => Except.ok j
    | none => Except.error ("Gateway returned non-JSON: " ++ pyRepr (resp.text.take 500))

/-- Whether `pat` is a leading segment of `hay`. -/
def takesPre : List Char → List Char → Bool
  | [], _ => true
  | _ :: _, [] => false
  | p :: ps, h :: hs => p = h && takesPre ps hs

/-- Whether `pat` occurs contiguously somewhere in `hay`. -/
def hasSub (pat : List Char) : List Char → Bool
  | [] => takesPre pat []
  | h :: hs => takesPre pat (h :: hs) || hasSub pat hs

/-- Whether the string `pat` occurs as a substring of `hay` (used to state
that a diagnostic message carries a piece of information). -/
def strHas (hay pat : String) : Bool := hasSub pat.data hay.data

/-- Keyword-only parameters accepted by `run_order_workflow`
(`run_workflow.py` line 122). -/
def runOrderWorkflowKeywordParams : List String := ["settings", "event_sink"]

/-- Keyword arguments the web app's `_run_background` passes to
`run_order_workflow` (`web_app.py` lines 45-49). -/
def webAppCallKeywords : List String := ["settings", "order_id", "event_sink"]

/-- Python call binding for a callee without `**kwargs`: every keyword
argument must name a declared parameter, otherwise the call raises
`TypeError` before the callee's body runs. -/
def pyCallBindsKeywords (params kwargs : List String) : Bool :=
  kwargs.all (fun k => params.contains k)

/-- Run status recorded on a web-app `RunState` (`web_app.py` line 20). -/
inductive RunStatus where
  | running
  | succeeded
  | failed
deriving DecidableEq

/-- `_run_background` (`web_app.py` lines 37-57): call `run_order_workflow`
with the keywords of `webAppCallKeywords`; any exception — including the
`TypeError` raised at binding time, before any session is started — is
caught and recorded as status `"failed"`.  Returns the recorded status and
the number of sessions the callee started. -/
def runBackgroundOutcome (env : Env) : RunStatus × Nat :=
  if pyCallBindsKeywords runOrderWorkflowKeywordParams webAppCallKeywords then
    match (runOrderWorkflow env).1 with
    | Except.ok _ => (RunStatus.succeeded, (startPhase env).2.1.length)
    | Except.error _ => (RunStatus.failed, (startPhase env).2.1.length)
  else (RunStatus.failed, 0)

/-- A concrete gateway response in the flat shape carrying one tool call,
used to script runs. -/
def gjA : List (String × Json) :=
  [("content", Json.str "working"),
   ("tool_calls", Json.arr
     [Json.obj [("id", Json.str "call_1"),
                ("name", Json.str "crm_getCustomerEmail"),
                ("arguments", Json.str "\x7b\x7d")]])]

/-- A concrete scripted environment: both servers start and advertise the
repository's tools, the gateway always requests one tool call, `json.loads`
always fails, and stopping the email session raises. -/
def envA : Env where
  startFails := fun _ => false
  listTools := fun s =>
    if s = "crm" then [⟨"getCustomerEmail", some "Look up a customer email by order id.", none⟩]
    else [⟨"sendShippingConfirmation", some "Send a shipping confirmation email.", none⟩]
  gateway := fun _ _ => Except.ok gjA
  loads := fun _ => none
  invoke := fun _ _ _ => [⟨"text", some "ok"⟩]
  stopSessionFails := fun s => s == "email"
  stopCmFails := fun _ => false

theorem allowedChar_dot : allowedChar '.' = false := by decide

theorem allowedChar_underscore : allowedChar '_' = true := by decide

/-- Resolution against an updated dict: the inserted key maps to the new
value, all other keys are untouched. -/
theorem assocFind_dictInsert {α : Type} (acc : List (String × α)) (k' : String) (v : α)
    (k : String) :
    assocFind (dictInsert acc k' v) k = if k = k' then some v else assocFind acc k := by
  induction acc with
  | nil =>
    by_cases h : k = k'
    · simp [dictInsert, assocFind, h]
    · simp [dictInsert, assocFind, h, Ne.symm h]
  | cons a rest ih =>
    obtain ⟨ka, va⟩ := a
    by_cases h1 : ka = k'
    · subst h1
      by_cases h2 : k = ka
      · simp [dictInsert, assocFind, h2]
      · simp [dictInsert, assocFind, h2, Ne.symm h2]
    · by_cases h2 : ka = k
      · have hkk : ¬ k = k' := fun he => h1 (h2.trans he)
        simp [dictInsert, assocFind, h1, h2, hkk]
      · simp [dictInsert, assocFind, h1, h2, ih]

/-- The catalog-build fold resolves a global name to the last visited pair
sanitizing to it, falling back to the accumulator. -/
theorem assocFind_foldl_insertToolPair (ps : List (String × String)) :
    ∀ (acc : List (String × String × String)) (k : String),
      assocFind (List.foldl insertToolPair acc ps) k
        = match lastSanitizeMatch ps k with
          | some q => some q
          | none => assocFind acc k := by
  induction ps with
  | nil => intro acc k; simp [lastSanitizeMatch]
  | cons p rest ih =>
    intro acc k
    have step : List.foldl insertToolPair acc (p :: rest)
        = List.foldl insertToolPair (insertToolPair acc p) rest := rfl
    rw [step, ih]
    cases hrest : lastSanitizeMatch rest k with
    | some q => simp [lastSanitizeMatch, hrest]
    | none =>
      simp only [lastSanitizeMatch, hrest]
      rw [insertToolPair, assocFind_dictInsert]
      by_cases hk : sanitizeToolName p.1 p.2 = k
      · rw [if_pos hk, if_pos hk.symm]
      · rw [if_neg hk, if_neg (fun he => hk he.symm)]

/-- C1: the claim that the global name is derived by replacing every
character outside `[A-Za-z0-9_-]` with `'_'` (hence always matches
`^[A-Za-z0-9_-]+$`) is false: the source replaces only `'.'`.  At session
name `"crm"` and local name `"a b"` the catalog receives `"crm_a b"`, which
differs from the spec-described derivation and violates the pattern. -/
theorem c1_counterexample :
    sanitizeToolName "crm" "a b" = "crm_a b"
    ∧ matchesToolNamePattern (sanitizeToolName "crm" "a b") = false
    ∧ sanitizeToolName "crm" "a b" ≠ specSanitizeToolName "crm" "a b" := by
  refine ⟨by decide, by decide, by decide⟩

/-- C1 (amended): the source derives the global name as
`<sessionName>_<localName>` with only `'.'` replaced by `'_'`; whenever the
session and local names consist of characters from `[A-Za-z0-9_.-]` — as
all names declared in this repository do — this coincides with the
spec-described replace-every-disallowed-character derivation and the result
matches `^[A-Za-z0-9_-]+$`. -/
theorem c1_sanitize_amended (server localName : String)
    (h : ∀ c ∈ (server ++ "_" ++ localName).data, allowedChar c = true ∨ c = '.') :
    sanitizeToolName server localName = specSanitizeToolName server localName
    ∧ matchesToolNamePattern (sanitizeToolName server localName) = true := by
  constructor
  · unfold sanitizeToolName specSanitizeToolName
    congr 1
    apply List.map_congr_left
    intro c hc
    rcases h c hc with hall | hdot
    · have hne : c ≠ '.' := by
        intro he
        rw [he] at hall
        simp [allowedChar_dot] at hall
      simp [hne, hall]
    · subst hdot
      simp [allowedChar_dot]
  · unfold matchesToolNamePattern sanitizeToolName
    have hdata : (server ++ "_" ++ localName).data
        = (server.data ++ ['_']) ++ localName.data := by
      simp [String.data_append]
    rw [hdata]
    simp only [List.map_append, Bool.and_eq_true]
    constructor
    · simp
    · simp only [List.all_append, Bool.and_eq_true, List.all_eq_true]
      refine ⟨⟨?_, ?_⟩, ?_⟩
      · intro c hc
        simp only [List.mem_map] at hc
        obtain ⟨c0, hc0, hmap⟩ := hc
        have := h c0 (by rw [hdata]; exact List.mem_append_left _ (List.mem_append_left _ hc0))
        rcases this with hall | hdot
        · have hne : c0 ≠ '.' := by
            intro he; rw [he] at hall; simp [allowedChar_dot] at hall
          rw [← hmap]; simp [hne, hall]
        · rw [← hmap, hdot]; simp [allowedChar_underscore]
      · intro c hc
        simp only [List.mem_map, List.mem_singleton] at hc
        obtain ⟨c0, hc0, hmap⟩ := hc
        subst hc0
        rw [← hmap]
        simp [allowedChar_underscore]
      · intro c hc
        simp only [List.mem_map] at hc
        obtain ⟨c0, hc0, hmap⟩ := hc
        have := h c0 (by rw [hdata]; exact List.mem_append_right _ hc0)
        rcases this with hall | hdot
        · have hne : c0 ≠ '.' := by
            intro he; rw [he] at hall; simp [allowedChar_dot] at hall
          rw [← hmap]; simp [hne, hall]
        · rw [← hmap, hdot]; simp [allowedChar_underscore]

theorem c1_witness :
    sanitizeToolName "crm" "getCustomerEmail" = specSanitizeToolName "crm" "getCustomerEmail"
    ∧ matchesToolNamePattern (sanitizeToolName "crm" "getCustomerEmail") = true :=
  c1_sanitize_amended "crm" "getCustomerEmail" (by decide)

/-- C2: the claim that a sanitization collision fails the catalog build with
`DuplicateToolNameError` is false: `tool_index` is a plain dict and the
second assignment silently overwrites the first.  The distinct pairs
`("crm", "x.y")` and `("crm", "x_y")` both sanitize to `"crm_x_y"`, yet the
index is built without any error and maps the name to the later pair only. -/
theorem c2_counterexample :
    sanitizeToolName "crm" "x.y" = sanitizeToolName "crm" "x_y"
    ∧ (("crm", "x.y") : String × String) ≠ ("crm", "x_y")
    ∧ buildToolIndex [("crm", [⟨"x.y", none, none⟩, ⟨"x_y", none, none⟩])]
        = [("crm_x_y", ("crm", "x_y"))] := by
  refine ⟨by decide, by decide, by decide⟩

/-- C2 (amended): the catalog build never raises; for every sequence of
declared `(session, localName)` pairs, resolving a global name in the built
`tool_index` yields exactly the last visited pair that sanitizes to it —
collisions are silent, the earlier mapping is lost. -/
theorem c2_amended (ps : List (String × String)) (k : String) :
    assocFind (buildToolIndexPairs ps) k = lastSanitizeMatch ps k := by
  rw [buildToolIndexPairs, assocFind_foldl_insertToolPair]
  cases h : lastSanitizeMatch ps k <;> simp [assocFind]

/-- Pairing each element with a tag and projecting the first components is
the identity (shape of the teardown-attempt log). -/
theorem map_fst_pairing (l : List String) (f : String → Bool) :
    (l.map (fun s => (s, f s))).map Prod.fst = l := by
  induction l with
  | nil => rfl
  | cons a t ih => simp [ih]

/-- A scripted gateway that always requests at least one tool call drives the
loop through its whole budget: the loop returns the non-converged outcome
with exactly as many gateway exchanges as it had fuel. -/
theorem runLoop_nonconverged (env : Env) (idx : List (String × String × String))
    (tools : List Json)
    (hgw : ∀ msgs, ∃ g, env.gateway msgs tools = Except.ok g
        ∧ (extractAssistantAndToolCalls g).2 ≠ []) :
    ∀ (n : Nat) (msgs : List Message),
      runLoop env idx tools n msgs = Except.ok (Outcome.nonConverged, n) := by
  intro n
  induction n with
  | zero => intro msgs; rfl
  | succ n ih =>
    intro msgs
    obtain ⟨g, hg, hcalls⟩ := hgw msgs
    cases hext : extractAssistantAndToolCalls g with
    | mk text calls =>
      cases calls with
      | nil => rw [hext] at hcalls; simp at hcalls
      | cons c cs => simp only [runLoop, hg, hext, ih]

/-- If every gateway exchange succeeds, the loop never raises, whatever the
responses, the catalog and the argument parser do. -/
theorem runLoop_ok (env : Env) (idx : List (String × String × String)) (tools : List Json)
    (hgw : ∀ msgs, ∃ g, env.gateway msgs tools = Except.ok g) :
    ∀ (n : Nat) (msgs : List Message), ∃ r, runLoop env idx tools n msgs = Except.ok r := by
  intro n
  induction n with
  | zero => intro msgs; exact ⟨(Outcome.nonConverged, 0), rfl⟩
  | succ n ih =>
    intro msgs
    obtain ⟨g, hg⟩ := hgw msgs
    cases hext : extractAssistantAndToolCalls g with
    | mk text calls =>
      cases calls with
      | nil => exact ⟨(Outcome.done text, 1), by simp [runLoop, hg, hext]⟩
      | cons c cs =>
        obtain ⟨⟨o, m⟩, hr⟩ := ih
            (msgs ++ Message.assistant text (c :: cs)
              :: ((c :: cs).map (processCall env idx)).map Prod.fst)
        refine ⟨(o, m + 1), ?_⟩
        simp only [List.map_map, List.map_cons, Function.comp_apply] at hr
        simp [runLoop, hg, hext, hr, List.map_map, Function.comp]

/-- When no server start fails, both servers end up started. -/
theorem startPhase_ok (env : Env) (hstart : ∀ s, env.startFails s = false) :
    startPhase env = (["crm", "email"], ["crm", "email"], none) := by
  simp [startPhase, startGo, serverNames, hstart]

/-- When the starts and every gateway exchange succeed, the whole run returns
normally, whatever the responses contain. -/
theorem runOrderWorkflow_ok (env : Env)
    (hstart : ∀ s, env.startFails s = false)
    (hgw : ∀ msgs tools, ∃ g, env.gateway msgs tools = Except.ok g) :
    ∃ r, (runOrderWorkflow env).1 = Except.ok r := by
  have hsp := startPhase_ok env hstart
  obtain ⟨⟨o, m⟩, hr⟩ := runLoop_ok env
      (buildToolIndex ((["crm", "email"] : List String).map (fun s => (s, env.listTools s))))
      (buildToolsList ((["crm", "email"] : List String).map (fun s => (s, env.listTools s))))
      (fun msgs => hgw msgs _) 10
      [Message.system systemPromptText, Message.user userPromptText]
  simp only [List.map_cons, List.map_nil] at hr
  cases o with
  | done t => exact ⟨(t, m), by simp [runOrderWorkflow, hsp, hr]⟩
  | nonConverged => exact ⟨(Json.str notConvergedText, m), by simp [runOrderWorkflow, hsp, hr]⟩

/-- C3: when the gateway response carries at least one tool call on every
turn, the run returns the Failed/non-converged outcome as a normal result
(`Except.ok`, not an error) after exactly 10 gateway exchanges — never
fewer, never more. -/
theorem c3_nonconvergence (env : Env)
    (hstart : ∀ s, env.startFails s = false)
    (hgw : ∀ msgs tools, ∃ g, env.gateway msgs tools = Except.ok g
        ∧ (extractAssistantAndToolCalls g).2 ≠ []) :
    (runOrderWorkflow env).1 = Except.ok (Json.str notConvergedText, 10) := by
  have hsp := startPhase_ok env hstart
  have hloop := runLoop_nonconverged env
      (buildToolIndex ((["crm", "email"] : List String).map (fun s => (s, env.listTools s))))
      (buildToolsList ((["crm", "email"] : List String).map (fun s => (s, env.listTools s))))
      (fun msgs => hgw msgs _) 10
      [Message.system systemPromptText, Message.user userPromptText]
  simp only [List.map_cons, List.map_nil] at hloop
  simp [runOrderWorkflow, hsp, hloop]

theorem c3_witness :
    (runOrderWorkflow envA).1 = Except.ok (Json.str notConvergedText, 10) :=
  c3_nonconvergence envA (fun _ => rfl) (fun _ _ => ⟨gjA, rfl, by decide⟩)

/-- C4: on every exit path (start failure, gateway error, completion or
non-convergence) the `finally` teardown attempts to stop exactly the started
sessions, each exactly once, regardless of which per-session teardowns raise
(each attempt is wrapped in its own `try/except`). -/
theorem c4_teardown (env : Env) :
    ((runOrderWorkflow env).2.1).map Prod.fst = (startPhase env).2.1
    ∧ ∀ s ∈ (startPhase env).2.1,
        List.count s (((runOrderWorkflow env).2.1).map Prod.fst) = 1 := by
  have h1 : ((runOrderWorkflow env).2.1).map Prod.fst = (startPhase env).2.1 :=
    map_fst_pairing (startPhase env).2.1 env.stopSessionFails
  refine ⟨h1, ?_⟩
  intro s hs
  rw [h1]
  cases ha : env.startFails "crm" with
  | true => simp [startPhase, startGo, serverNames, ha] at hs
  | false =>
    cases hb : env.startFails "email" with
    | true =>
      simp [startPhase, startGo, serverNames, ha, hb] at hs ⊢
      subst hs; decide
    | false =>
      simp [startPhase, startGo, serverNames, ha, hb] at hs ⊢
      rcases hs with h | h <;> subst h <;> decide

theorem c4_witness :
    List.count "crm" (((runOrderWorkflow envA).2.1).map Prod.fst) = 1 :=
  (c4_teardown envA).2 "crm" (by decide)

/-- `pyOr` with a truthy default always yields a truthy value. -/
theorem isTruthy_pyOr (j d : Json) (hd : isTruthy d = true) : isTruthy (pyOr j d) = true := by
  unfold pyOr
  by_cases h : isTruthy j
  · simp [h]
  · simp [h, hd]

/-- When `choices` is a nonempty list, the normalizer takes shape 1,
regardless of any other keys in the response. -/
theorem extract_eq_choice (g : List (String × Json)) (c0 : Json) (rest : List Json)
    (h : dictGetL g "choices" = Json.arr (c0 :: rest)) :
    extractAssistantAndToolCalls g = extractFromChoice c0 := by
  unfold extractAssistantAndToolCalls
  rw [h]

/-- When `choices` is absent, empty or not a list, the normalizer falls
through to shape 2 or the opaque-text fallback. -/
theorem extract_eq_default (g : List (String × Json))
    (h : ∀ c0 rest, dictGetL g "choices" ≠ Json.arr (c0 :: rest)) :
    extractAssistantAndToolCalls g
      = if containsKey g "content" && containsKey g "tool_calls" then extractFlat g
        else (Json.str ((dumps (Json.obj g)).take 2000), []) := by
  unfold extractAssistantAndToolCalls
  cases hch : dictGetL g "choices" with
  | null => rfl
  | bool b => rfl
  | num n => rfl
  | str s => rfl
  | arr xs =>
    cases xs with
    | nil => rfl
    | cons c0 rest => exact absurd hch (h c0 rest)
  | obj kvs => rfl

/-- Every tool call the normalizer produces carries truthy arguments:
falsy `arguments` values are defaulted to the string `"\x7b\x7d"`, so the
empty-string path of the argument parser is unreachable for them. -/
theorem extract_arguments_truthy (g : List (String × Json)) (c : ToolCall)
    (hc : c ∈ (extractAssistantAndToolCalls g).2) : isTruthy c.arguments = true := by
  by_cases hch : ∃ c0 rest, dictGetL g "choices" = Json.arr (c0 :: rest)
  · obtain ⟨c0, rest, h⟩ := hch
    rw [extract_eq_choice g c0 rest h] at hc
    simp only [extractFromChoice, List.mem_map] at hc
    obtain ⟨tc, htc, hmap⟩ := hc
    rw [← hmap]
    exact isTruthy_pyOr _ _ (by decide)
  · push_neg at hch
    rw [extract_eq_default g hch] at hc
    by_cases hk : (containsKey g "content" && containsKey g "tool_calls") = true
    · rw [if_pos hk] at hc
      simp only [extractFlat, List.mem_map] at hc
      obtain ⟨tc, htc, hmap⟩ := hc
      rw [← hmap]
      exact isTruthy_pyOr _ _ (by decide)
    · rw [if_neg hk] at hc
      simp at hc

/-- C5: tool calls with non-JSON-parseable (and, coming from the
normalizer, necessarily nonempty) `arguments` never abort the run: the
parser substitutes the fallback payload carrying the raw string unmodified,
the dispatched arguments are exactly that payload, and a run whose gateway
exchanges succeed always returns normally, whatever `json.loads` does. -/
theorem c5_malformed_args (loads : String → Option Json) (raw : String)
    (h1 : raw ≠ "") (h2 : loads raw = none) :
    parseArgs loads (Json.str raw) = Json.obj [("_raw", Json.str raw)]
    ∧ (∀ (g : List (String × Json)) (c : ToolCall),
        c ∈ (extractAssistantAndToolCalls g).2 → isTruthy c.arguments = true)
    ∧ (∀ (env : Env) (idx : List (String × String × String)) (tc : ToolCall)
        (p : String × String × Json),
        env.loads raw = none → tc.arguments = Json.str raw →
        (processCall env idx tc).2 = some p → p.2.2 = Json.obj [("_raw", Json.str raw)])
    ∧ (∀ env : Env,
        (∀ msgs tools, ∃ g, env.gateway msgs tools = Except.ok g) →
        (∀ s, env.startFails s = false) →
        ∃ r, (runOrderWorkflow env).1 = Except.ok r) := by
  have hparse : ∀ (L : String → Option Json), L raw = none →
      parseArgs L (Json.str raw) = Json.obj [("_raw", Json.str raw)] := by
    intro L hL
    unfold parseArgs
    have ht : isTruthy (Json.str raw) = true := by
      simp [isTruthy, bne_iff_ne, h1]
    rw [ht]
    simp [hL]
  refine ⟨hparse loads h2, extract_arguments_truthy, ?_,
    fun env hg hs => runOrderWorkflow_ok env hs hg⟩
  intro env idx tc p hL harg hps
  simp only [processCall] at hps
  cases hl : lookupToolIndex idx tc.name with
  | none => rw [hl] at hps; simp at hps
  | some q =>
    obtain ⟨sn, lt⟩ := q
    rw [hl] at hps
    simp only [Option.some.injEq] at hps
    rw [← hps]
    show parseArgs env.loads tc.arguments = _
    rw [harg]
    exact hparse env.loads hL

theorem c5_witness :
    parseArgs (fun _ => none) (Json.str "oops") = Json.obj [("_raw", Json.str "oops")] :=
  (c5_malformed_args (fun _ => none) "oops" (by decide) rfl).1

/-- C6: a requested global name absent from `tool_index` invokes no
session: the per-call processing returns the unknown-tool error payload as
the tool message for the request's call id, performs no invocation, and the
run (whose gateway exchanges succeed) still returns normally. -/
theorem c6_unknown_tool (env : Env) (idx : List (String × String × String))
    (tc : ToolCall) (gname : String)
    (hname : tc.name = Json.str gname) (hmiss : assocFind idx gname = none) :
    (processCall env idx tc).2 = none
    ∧ (processCall env idx tc).1
        = Message.tool tc.id
            (dumps (Json.obj [("error", Json.str ("Unknown tool: " ++ gname))]))
    ∧ (∀ env2 : Env,
        (∀ msgs tools, ∃ g, env2.gateway msgs tools = Except.ok g) →
        (∀ s, env2.startFails s = false) →
        ∃ r, (runOrderWorkflow env2).1 = Except.ok r) := by
  have hl : lookupToolIndex idx tc.name = none := by
    rw [hname]
    simp [lookupToolIndex, hmiss]
  refine ⟨?_, ?_, fun env2 hg hs => runOrderWorkflow_ok env2 hs hg⟩
  · simp [processCall, hl]
  · simp [processCall, hname, lookupToolIndex, hmiss, pyFStr]

theorem c6_witness :
    (processCall envA [] ⟨Json.str "id1", Json.str "ghost", Json.str "\x7b\x7d"⟩).2 = none :=
  (c6_unknown_tool envA [] ⟨Json.str "id1", Json.str "ghost", Json.str "\x7b\x7d"⟩
    "ghost" rfl rfl).1

theorem takesPre_refl (p : List Char) : takesPre p p = true := by
  induction p with
  | nil => rfl
  | cons c cs ih => simp [takesPre, ih]

theorem takesPre_mono (p : List Char) :
    ∀ l r : List Char, takesPre p l = true → takesPre p (l ++ r) = true := by
  induction p with
  | nil => intro l r _; rfl
  | cons c cs ih =>
    intro l r h
    cases l with
    | nil => simp [takesPre] at h
    | cons d ds =>
      simp only [takesPre, Bool.and_eq_true] at h
      simp [takesPre, h.1, ih ds r h.2]

theorem hasSub_nil (l : List Char) : hasSub [] l = true := by
  cases l <;> simp [hasSub, takesPre]

theorem hasSub_self (p : List Char) : hasSub p p = true := by
  cases p with
  | nil => rfl
  | cons c cs => simp [hasSub, takesPre_refl]

theorem hasSub_append_right (pat : List Char) :
    ∀ l r : List Char, hasSub pat l = true → hasSub pat (l ++ r) = true := by
  intro l
  induction l with
  | nil =>
    intro r h
    cases pat with
    | nil => exact hasSub_nil r
    | cons c cs => simp [hasSub, takesPre] at h
  | cons d ds ih =>
    intro r h
    simp only [hasSub, Bool.or_eq_true] at h
    rcases h with h | h
    · simp only [List.cons_append, hasSub, Bool.or_eq_true]
      exact Or.inl (takesPre_mono _ _ _ h)
    · simp [hasSub, ih r h]

theorem hasSub_append_left (pat l r : List Char) (h : hasSub pat r = true) :
    hasSub pat (l ++ r) = true := by
  induction l with
  | nil => exact h
  | cons d ds ih => simp [hasSub, ih]

theorem strHas_self (s : String) : strHas s s = true := hasSub_self s.data

theorem strHas_append_right (hay ext pat : String) (h : strHas hay pat = true) :
    strHas (hay ++ ext) pat = true := by
  unfold strHas at h ⊢
  rw [String.data_append]
  exact hasSub_append_right pat.data hay.data ext.data h

theorem strHas_append_left (ext hay pat : String) (h : strHas hay pat = true) :
    strHas (ext ++ hay) pat = true := by
  unfold strHas at h ⊢
  rw [String.data_append]
  exact hasSub_append_left pat.data ext.data hay.data h

theorem strHas_pyRepr (s : String) : strHas (pyRepr s) s = true :=
  strHas_append_right _ _ _ (strHas_append_left _ _ _ (strHas_self s))

/-- C7: the claim that both failure modes raise an error whose message
carries the status code, the URL and a body preview is false for the
non-JSON branch: at status 200 with unparseable body `"hello"`, the raised
message carries only the body preview — neither the request URL nor the
status appear in it. -/
theorem c7_gateway_counterexample :
    velocityChatCompletions (fun _ => none) "http://gw" ⟨200, "hello"⟩
      = Except.error ("Gateway returned non-JSON: " ++ pyRepr "hello")
    ∧ strHas ("Gateway returned non-JSON: " ++ pyRepr "hello") (apiUrlOf "http://gw") = false
    ∧ strHas ("Gateway returned non-JSON: " ++ pyRepr "hello") "200" = false := by
  have htake : ("hello" : String).take 500 = "hello" := by
    ext1
    rw [String.data_take]
    decide
  refine ⟨?_, by decide, by decide⟩
  unfold velocityChatCompletions
  rw [if_neg (by decide), htake]

/-- C7 (amended): a status >= 400 raises an error whose message carries the
status code, the request URL and the body preview truncated to 500
characters; a success status with an unparseable body raises an error whose
message carries (only) that truncated body preview; a success status with a
parseable JSON body never raises. -/
theorem c7_gateway_amended (loads : String → Option Json) (baseUrl : String)
    (resp : HttpResponse) :
    (400 ≤ resp.status →
      ∃ m, velocityChatCompletions loads baseUrl resp = Except.error m
        ∧ strHas m (toString resp.status) = true
        ∧ strHas m (apiUrlOf baseUrl) = true
        ∧ strHas m (resp.text.take 500) = true)
    ∧ (resp.status < 400 → loads resp.text = none →
      ∃ m, velocityChatCompletions loads baseUrl resp = Except.error m
        ∧ strHas m (resp.text.take 500) = true)
    ∧ (∀ j, resp.status < 400 → loads resp.text = some j →
        velocityChatCompletions loads baseUrl resp = Except.ok j) := by
  refine ⟨?_, ?_, ?_⟩
  · intro h
    refine ⟨_, by unfold velocityChatCompletions; rw [if_pos h], ?_, ?_, ?_⟩
    · exact strHas_append_right _ _ _ (strHas_append_right _ _ _ (strHas_append_right _ _ _
        (strHas_append_right _ _ _ (strHas_append_left _ _ _ (strHas_self _)))))
    · exact strHas_append_right _ _ _ (strHas_append_right _ _ _
        (strHas_append_left _ _ _ (strHas_pyRepr _)))
    · exact strHas_append_left _ _ _ (strHas_pyRepr _)
  · intro h hl
    refine ⟨"Gateway returned non-JSON: " ++ pyRepr (resp.text.take 500), ?_, ?_⟩
    · unfold velocityChatCompletions
      rw [if_neg (Nat.not_le.mpr h), hl]
    · exact strHas_append_left _ _ _ (strHas_pyRepr _)
  · intro j h hl
    unfold velocityChatCompletions
    rw [if_neg (Nat.not_le.mpr h), hl]

theorem c7_gateway_witness :
    ∃ m, velocityChatCompletions (fun _ => none) "http://gw" ⟨500, "bad"⟩ = Except.error m
      ∧ strHas m (toString (500 : Nat)) = true
      ∧ strHas m (apiUrlOf "http://gw") = true
      ∧ strHas m (("bad" : String).take 500) = true :=
  (c7_gateway_amended (fun _ => none) "http://gw" ⟨500, "bad"⟩).1 (by decide)

/-- C8: the normalizer applies its three shapes in fixed priority order,
first match wins: a nonempty `choices` list is extracted as shape 1 with no
condition on (and regardless of) the flat `content`/`tool_calls` keys; with
no such `choices`, both flat keys present select shape 2; anything else is
dumped as opaque text truncated to 2000 characters with zero tool calls. -/
theorem c8_priority (g : List (String × Json)) :
    (∀ c0 rest, dictGetL g "choices" = Json.arr (c0 :: rest) →
        extractAssistantAndToolCalls g = extractFromChoice c0)
    ∧ ((∀ c0 rest, dictGetL g "choices" ≠ Json.arr (c0 :: rest)) →
        containsKey g "content" = true → containsKey g "tool_calls" = true →
        extractAssistantAndToolCalls g = extractFlat g)
    ∧ ((∀ c0 rest, dictGetL g "choices" ≠ Json.arr (c0 :: rest)) →
        (containsKey g "content" && containsKey g "tool_calls") = false →
        extractAssistantAndToolCalls g
          = (Json.str ((dumps (Json.obj g)).take 2000), [])) := by
  refine ⟨fun c0 rest h => extract_eq_choice g c0 rest h, ?_, ?_⟩
  · intro hne h1 h2
    rw [extract_eq_default g hne, if_pos (by simp [h1, h2])]
  · intro hne hk
    rw [extract_eq_default g hne, if_neg (by simp [hk])]

theorem c8_witness :
    extractAssistantAndToolCalls
        [("choices", Json.arr [Json.obj [("message", Json.obj [("content", Json.str "hi")])]]),
         ("content", Json.str "flat"), ("tool_calls", Json.arr [])]
      = extractFromChoice (Json.obj [("message", Json.obj [("content", Json.str "hi")])]) :=
  (c8_priority
    [("choices", Json.arr [Json.obj [("message", Json.obj [("content", Json.str "hi")])]]),
     ("content", Json.str "flat"), ("tool_calls", Json.arr [])]).1
    (Json.obj [("message", Json.obj [("content", Json.str "hi")])]) [] rfl

/-- C9: a `choices` key holding an empty list (or any non-list) never
selects shape 1: the normalizer extracts via the flat shape when both
`content` and `tool_calls` keys are present, and otherwise returns the
truncated JSON dump of the whole response with zero tool calls. -/
theorem c9_choices_fallthrough (g : List (String × Json)) (v : Json)
    (hv : assocFind g "choices" = some v)
    (hshape : v = Json.arr [] ∨ ∀ xs : List Json, v ≠ Json.arr xs) :
    (containsKey g "content" = true → containsKey g "tool_calls" = true →
        extractAssistantAndToolCalls g = extractFlat g)
    ∧ ((containsKey g "content" && containsKey g "tool_calls") = false →
        extractAssistantAndToolCalls g
          = (Json.str ((dumps (Json.obj g)).take 2000), [])) := by
  have hne : ∀ c0 rest, dictGetL g "choices" ≠ Json.arr (c0 :: rest) := by
    intro c0 rest hcontra
    rw [dictGetL, hv] at hcontra
    simp only [Option.getD_some] at hcontra
    rcases hshape with h | h
    · rw [h] at hcontra
      simp at hcontra
    · exact h (c0 :: rest) hcontra
  constructor
  · intro h1 h2
    rw [extract_eq_default g hne, if_pos (by simp [h1, h2])]
  · intro hk
    rw [extract_eq_default g hne, if_neg (by simp [hk])]

theorem c9_witness :
    extractAssistantAndToolCalls
        [("choices", Json.arr []), ("content", Json.str "x"), ("tool_calls", Json.arr [])]
      = extractFlat
        [("choices", Json.arr []), ("content", Json.str "x"), ("tool_calls", Json.arr [])] :=
  (c9_choices_fallthrough
    [("choices", Json.arr []), ("content", Json.str "x"), ("tool_calls", Json.arr [])]
    (Json.arr []) rfl (Or.inl rfl)).1 rfl rfl

/-- C10: `run_order_workflow` accepts only the keywords `settings` and
`event_sink`, but `_run_background` always passes `order_id` as well; the
call raises `TypeError` at binding time — before any session is started —
and the run is recorded with status `failed`, whatever the environment
would have done. -/
theorem c10_order_id_type_error (env : Env) :
    pyCallBindsKeywords runOrderWorkflowKeywordParams webAppCallKeywords = false
    ∧ webAppCallKeywords.contains "order_id" = true
    ∧ runOrderWorkflowKeywordParams.contains "order_id" = false
    ∧ runBackgroundOutcome env = (RunStatus.failed, 0) := by
  have hb : pyCallBindsKeywords runOrderWorkflowKeywordParams webAppCallKeywords = false := by
    decide
  refine ⟨hb, by decide, by decide, ?_⟩
  simp [runBackgroundOutcome, hb]
